import Mathlib

/-!
Rexus dashboard: the live update step of `frontend/src/App.jsx`

The dashboard fetches an analytics snapshot and then patches it for every log
record that arrives on the web socket (`ws.onmessage`, lines 44-78).  This file
embeds that update step as a pure function `onmessage : Data → LogEvent → Data`
and proves what it does to the counters, the status histogram and the list of
recent errors.

Modelling conventions

* JavaScript numbers that occur here are counters and HTTP status codes; they
  are modelled as `Int` (no rounding occurs below `2^53`).
* A JSON object is the list of its own properties in enumeration order
  (`Obj`); property values are JSON scalars (`JVal`).
* `JSON.parse(JSON.stringify(x))` is the identity on JSON data, which is all a
  snapshot ever holds, so `deepCopy` returns its argument.
-/

namespace Rexus

/-- A JSON scalar, the kind of value a log record carries in its fields. -/
inductive JVal where
  | null : JVal
  | bool (b : Bool) : JVal
  | num (n : Int) : JVal
  | str (s : String) : JVal
  deriving DecidableEq, Repr

/-- A JSON object: its own properties, in enumeration order. -/
abbrev Obj := List (String × JVal)

/-- Property read `o[k]`; `none` stands for `undefined`. -/
def Obj.get (o : Obj) (k : String) : Option JVal :=
  match o with
  | [] => none
  | (k', v) :: rest => if k' = k then some v else Obj.get rest k

/-- Property write `o[k] = v`: an existing property keeps its position and
takes the new value, a new property is added at the end. -/
def Obj.set (o : Obj) (k : String) (v : JVal) : Obj :=
  match o with
  | [] => [(k, v)]
  | (k', v') :: rest => if k' = k then (k', v) :: rest else (k', v') :: Obj.set rest k v

/-- Object spread `{ ...target, ...src }` onto an object under construction:
every own property of `src` is written to `target`, in order. -/
def Obj.spread (target src : Obj) : Obj :=
  src.foldl (fun t p => Obj.set t p.1 p.2) target

/-- The parsed web-socket message `newLog`: a JSON object whose `status_code`
is an integer and which has a `timestamp_utc`.  `props` is the whole object
(`JSON.parse` yields each property name once); `status_code` and
`timestamp_utc` are the two properties the update step reads from it. -/
structure LogEvent where
  props : Obj
  status_code : Int
  timestamp_utc : JVal
  status_code_eq : Obj.get props "status_code" = some (JVal.num status_code)
  timestamp_utc_eq : Obj.get props "timestamp_utc" = some timestamp_utc
  keys_nodup : (props.map Prod.fst).Nodup

/-- The object `status_code_counts` with its three classes. -/
structure StatusCodeCounts where
  c2xx : Int
  c4xx : Int
  c5xx : Int
  deriving DecidableEq, Repr

/-- The analytics snapshot held in the React state `data`. -/
structure Data where
  total_requests : Int
  successful_requests : Int
  total_errors : Int
  status_code_counts : StatusCodeCounts
  requests_over_time : List (String × Int)
  top_endpoints : List (String × Int)
  top_users : List (String × Int)
  recent_errors : List Obj
  deriving DecidableEq, Repr

/-- The copy `JSON.parse(JSON.stringify(currentData))` of line 48. -/
def deepCopy (currentData : Data) : Data := currentData

/-- The object literal `{ id: newLog.timestamp_utc, ...newLog }` of lines 66-69:
`id` is written first, then every own property of `newLog` is written over
the result. -/
def newError (newLog : LogEvent) : Obj :=
  Obj.spread [("id", newLog.timestamp_utc)] newLog.props

/-- The two array operations of lines 70-73: `unshift(newError)` and, when
the length then exceeds 10, one `pop()`. -/
def unshiftBounded (recent_errors : List Obj) (entry : Obj) : List Obj :=
  let unshifted := entry :: recent_errors
  if unshifted.length > 10 then unshifted.dropLast else unshifted

/-- The state updater passed to `setData` in `ws.onmessage` (lines 47-77). -/
def onmessage (currentData : Data) (newLog : LogEvent) : Data :=
  let updatedData := deepCopy currentData
  let updatedData := { updatedData with total_requests := updatedData.total_requests + 1 }
  let updatedData :=
    if newLog.status_code < 400 then
      { updatedData with successful_requests := updatedData.successful_requests + 1 }
    else
      { updatedData with total_errors := updatedData.total_errors + 1 }
  let updatedData :=
    if newLog.status_code ≥ 500 then
      { updatedData with status_code_counts :=
          { updatedData.status_code_counts with c5xx := updatedData.status_code_counts.c5xx + 1 } }
    else if newLog.status_code ≥ 400 then
      { updatedData with status_code_counts :=
          { updatedData.status_code_counts with c4xx := updatedData.status_code_counts.c4xx + 1 } }
    else
      { updatedData with status_code_counts :=
          { updatedData.status_code_counts with c2xx := updatedData.status_code_counts.c2xx + 1 } }
  let updatedData :=
    if newLog.status_code ≥ 400 then
      { updatedData with
          recent_errors := unshiftBounded updatedData.recent_errors (newError newLog) }
    else updatedData
  updatedData

/-- The updater applied to each message of a sequence in turn. -/
def applyAll (currentData : Data) (events : List LogEvent) : Data :=
  events.foldl onmessage currentData

/-- A snapshot with all counters zero and every list empty. -/
def initialData : Data :=
  { total_requests := 0, successful_requests := 0, total_errors := 0,
    status_code_counts := { c2xx := 0, c4xx := 0, c5xx := 0 },
    requests_over_time := [], top_endpoints := [], top_users := [], recent_errors := [] }

/-- A log record with the four fields the backend sends. -/
def mkEvent (ts path user : String) (code : Int) : LogEvent :=
  { props := [("timestamp_utc", JVal.str ts), ("request_path", JVal.str path),
              ("status_code", JVal.num code), ("user", JVal.str user)],
    status_code := code,
    timestamp_utc := JVal.str ts,
    status_code_eq := by simp [Obj.get],
    timestamp_utc_eq := by simp [Obj.get],
    keys_nodup := by simp }

/-- A log record that also carries an `id` of its own. -/
def mkEventWithId (id ts path user : String) (code : Int) : LogEvent :=
  { props := [("id", JVal.str id), ("timestamp_utc", JVal.str ts),
              ("request_path", JVal.str path), ("status_code", JVal.num code),
              ("user", JVal.str user)],
    status_code := code,
    timestamp_utc := JVal.str ts,
    status_code_eq := by simp [Obj.get],
    timestamp_utc_eq := by simp [Obj.get],
    keys_nodup := by simp }

/-- Ten error records, the oldest first. -/
def tenErrors : List LogEvent :=
  (List.range 10).map (fun i => mkEvent (toString i) "/x" "u" 500)

/-- A snapshot whose list of recent errors is full. -/
def fullData : Data := applyAll initialData tenErrors

/-! ## Field-by-field description of one update -/

theorem onmessage_total_requests (s : Data) (e : LogEvent) :
    (onmessage s e).total_requests = s.total_requests + 1 := by
  unfold onmessage deepCopy
  split_ifs <;> rfl

theorem onmessage_successful_requests (s : Data) (e : LogEvent) :
    (onmessage s e).successful_requests =
      if e.status_code < 400 then s.successful_requests + 1 else s.successful_requests := by
  unfold onmessage deepCopy
  split_ifs <;> rfl

theorem onmessage_total_errors (s : Data) (e : LogEvent) :
    (onmessage s e).total_errors =
      if e.status_code < 400 then s.total_errors else s.total_errors + 1 := by
  unfold onmessage deepCopy
  split_ifs <;> rfl

theorem onmessage_status_code_counts (s : Data) (e : LogEvent) :
    (onmessage s e).status_code_counts =
      if e.status_code ≥ 500 then
        { s.status_code_counts with c5xx := s.status_code_counts.c5xx + 1 }
      else if e.status_code ≥ 400 then
        { s.status_code_counts with c4xx := s.status_code_counts.c4xx + 1 }
      else
        { s.status_code_counts with c2xx := s.status_code_counts.c2xx + 1 } := by
  unfold onmessage deepCopy
  split_ifs <;> rfl

theorem onmessage_recent_errors (s : Data) (e : LogEvent) :
    (onmessage s e).recent_errors =
      if e.status_code ≥ 400 then unshiftBounded s.recent_errors (newError e)
      else s.recent_errors := by
  unfold onmessage deepCopy
  split_ifs <;> rfl

theorem onmessage_frame (s : Data) (e : LogEvent) :
    (onmessage s e).requests_over_time = s.requests_over_time ∧
    (onmessage s e).top_endpoints = s.top_endpoints ∧
    (onmessage s e).top_users = s.top_users := by
  unfold onmessage deepCopy
  split_ifs <;> exact ⟨rfl, rfl, rfl⟩

theorem applyAll_nil (s : Data) : applyAll s [] = s := rfl

theorem applyAll_cons (s : Data) (e : LogEvent) (es : List LogEvent) :
    applyAll s (e :: es) = applyAll (onmessage s e) es := rfl

/-! ## The bounded list of recent errors -/

theorem unshiftBounded_eq_take (l : List Obj) (x : Obj) (h : l.length ≤ 10) :
    unshiftBounded l x = (x :: l).take 10 := by
  unfold unshiftBounded
  simp only [List.length_cons, gt_iff_lt]
  split_ifs with h10
  · have hl : l.length = 10 := by omega
    rw [List.dropLast_eq_take]
    simp [hl]
  · rw [List.take_of_length_le]
    simp only [List.length_cons]
    omega

theorem unshiftBounded_length_le (l : List Obj) (x : Obj) (h : l.length ≤ 10) :
    (unshiftBounded l x).length ≤ 10 := by
  rw [unshiftBounded_eq_take l x h]
  simp

theorem onmessage_recent_errors_length_le (s : Data) (e : LogEvent)
    (h : s.recent_errors.length ≤ 10) : (onmessage s e).recent_errors.length ≤ 10 := by
  rw [onmessage_recent_errors]
  split_ifs
  · exact unshiftBounded_length_le _ _ h
  · exact h

theorem take_append_take {α : Type} (n : Nat) (a b : List α) :
    (a ++ b.take n).take n = (a ++ b).take n := by
  rw [List.take_append_eq_append_take, List.take_append_eq_append_take, List.take_take]
  congr 2
  omega

/-! ## Objects: reading a property after writes -/

theorem Obj.get_set_self (o : Obj) (k : String) (v : JVal) :
    Obj.get (Obj.set o k v) k = some v := by
  induction o with
  | nil => simp [Obj.set, Obj.get]
  | cons p rest ih =>
    obtain ⟨k', v'⟩ := p
    by_cases hk : k' = k
    · simp [Obj.set, Obj.get, hk]
    · simp [Obj.set, Obj.get, hk, ih]

theorem Obj.get_set_of_ne (o : Obj) (k k' : String) (v : JVal) (h : k' ≠ k) :
    Obj.get (Obj.set o k' v) k = Obj.get o k := by
  induction o with
  | nil => simp [Obj.set, Obj.get, h]
  | cons p rest ih =>
    obtain ⟨k'', v''⟩ := p
    by_cases hk : k'' = k'
    · subst hk
      simp [Obj.set, Obj.get, h]
    · simp only [Obj.set, hk, if_false, Obj.get, ih]

theorem Obj.get_eq_none_of_not_mem (o : Obj) (k : String) (h : k ∉ o.map Prod.fst) :
    Obj.get o k = none := by
  induction o with
  | nil => rfl
  | cons p rest ih =>
    obtain ⟨k', v'⟩ := p
    simp only [List.map_cons, List.mem_cons, not_or] at h
    have hne : ¬ k' = k := fun hk => h.1 hk.symm
    simp only [Obj.get, hne, if_false]
    exact ih h.2

theorem Obj.get_spread (target src : Obj) (k : String) (h : (src.map Prod.fst).Nodup) :
    Obj.get (Obj.spread target src) k = (Obj.get src k).orElse (fun _ => Obj.get target k) := by
  induction src generalizing target with
  | nil => rfl
  | cons p rest ih =>
    obtain ⟨k', v'⟩ := p
    simp only [List.map_cons, List.nodup_cons] at h
    have hrest := ih (Obj.set target k' v') h.2
    unfold Obj.spread at hrest ⊢
    simp only [List.foldl_cons]
    rw [hrest]
    by_cases hk : k' = k
    · subst hk
      rw [Obj.get_eq_none_of_not_mem rest k' h.1]
      simp [Obj.get, Obj.get_set_self]
    · simp [Obj.get, hk, Obj.get_set_of_ne _ _ _ _ hk]

/-- Every property of the log record is carried into the error entry with the
record's value. -/
theorem newError_get_of_get (e : LogEvent) (k : String) (v : JVal)
    (h : Obj.get e.props k = some v) : Obj.get (newError e) k = some v := by
  unfold newError
  rw [Obj.get_spread _ _ _ e.keys_nodup, h]
  rfl

/-- The `id` of the error entry: the record's own `id` when it has one, the
timestamp otherwise. -/
theorem newError_get_id (e : LogEvent) :
    Obj.get (newError e) "id" = some ((Obj.get e.props "id").getD e.timestamp_utc) := by
  unfold newError
  rw [Obj.get_spread _ _ _ e.keys_nodup]
  cases h : Obj.get e.props "id" <;> simp [Obj.get]

/-! ## Claims -/

/-- C1: if `successful_requests + total_errors = total_requests` holds in a
snapshot, it holds again after the update has been applied to each record of
any finite sequence, and `total_requests` has grown by one per record. -/
theorem counter_invariant (s : Data) (es : List LogEvent)
    (h : s.successful_requests + s.total_errors = s.total_requests) :
    (applyAll s es).successful_requests + (applyAll s es).total_errors
        = (applyAll s es).total_requests ∧
      (applyAll s es).total_requests = s.total_requests + es.length := by
  induction es generalizing s with
  | nil => simp [applyAll_nil, h]
  | cons e es ih =>
    have hstep : (onmessage s e).successful_requests + (onmessage s e).total_errors
        = (onmessage s e).total_requests := by
      rw [onmessage_successful_requests, onmessage_total_errors, onmessage_total_requests]
      split_ifs <;> omega
    obtain ⟨h1, h2⟩ := ih (onmessage s e) hstep
    rw [applyAll_cons]
    refine ⟨h1, ?_⟩
    rw [h2, onmessage_total_requests]
    simp only [List.length_cons, Nat.cast_add, Nat.cast_one]
    omega

/-- The invariant of C1 on the all-zero snapshot and two records. -/
theorem counter_invariant_witness :
    initialData.successful_requests + initialData.total_errors = initialData.total_requests ∧
    (applyAll initialData [mkEvent "t1" "/a" "u" 200, mkEvent "t2" "/b" "u" 404]).successful_requests
      + (applyAll initialData [mkEvent "t1" "/a" "u" 200, mkEvent "t2" "/b" "u" 404]).total_errors
      = (applyAll initialData [mkEvent "t1" "/a" "u" 200, mkEvent "t2" "/b" "u" 404]).total_requests ∧
    (applyAll initialData [mkEvent "t1" "/a" "u" 200, mkEvent "t2" "/b" "u" 404]).total_requests
      = initialData.total_requests
        + [mkEvent "t1" "/a" "u" 200, mkEvent "t2" "/b" "u" 404].length :=
  ⟨by decide,
   counter_invariant initialData [mkEvent "t1" "/a" "u" 200, mkEvent "t2" "/b" "u" 404]
     (by decide)⟩

/-- C2: starting from at most 10 recent errors, the list holds at most 10
entries after every record of any sequence; and an error record applied to a
list of exactly 10 gives a list of exactly 10 whose first entry is the new
error and whose remainder is the old list without its last (oldest) entry. -/
theorem recent_errors_bounded (s : Data) (es : List LogEvent) (e : LogEvent)
    (h : s.recent_errors.length ≤ 10) :
    (∀ n, (applyAll s (es.take n)).recent_errors.length ≤ 10) ∧
    (e.status_code ≥ 400 → s.recent_errors.length = 10 →
      (onmessage s e).recent_errors.length = 10 ∧
      (onmessage s e).recent_errors.head? = some (newError e) ∧
      (onmessage s e).recent_errors = newError e :: s.recent_errors.dropLast) := by
  constructor
  · have key : ∀ (l : List LogEvent) (t : Data), t.recent_errors.length ≤ 10 →
        (applyAll t l).recent_errors.length ≤ 10 := by
      intro l
      induction l with
      | nil => intro t ht; exact ht
      | cons a l ih =>
        intro t ht
        rw [applyAll_cons]
        exact ih _ (onmessage_recent_errors_length_le t a ht)
    intro n
    exact key _ s h
  · intro he hlen
    have hre : (onmessage s e).recent_errors = newError e :: s.recent_errors.dropLast := by
      rw [onmessage_recent_errors, if_pos he]
      unfold unshiftBounded
      simp only [List.length_cons, gt_iff_lt]
      rw [if_pos (by omega)]
      cases hs : s.recent_errors with
      | nil => rw [hs] at hlen; simp at hlen
      | cons a l => rfl
    rw [hre]
    refine ⟨?_, rfl, rfl⟩
    simp [hlen]

/-- The bound of C2 on a full list of recent errors. -/
theorem recent_errors_bounded_witness :
    fullData.recent_errors.length ≤ 10 ∧
    (mkEvent "t10" "/y" "u" 503).status_code ≥ 400 ∧
    fullData.recent_errors.length = 10 ∧
    (∀ n, (applyAll fullData
        ([mkEvent "t10" "/y" "u" 503, mkEvent "t11" "/z" "u" 404].take n)).recent_errors.length
        ≤ 10) ∧
    (onmessage fullData (mkEvent "t10" "/y" "u" 503)).recent_errors.length = 10 ∧
    (onmessage fullData (mkEvent "t10" "/y" "u" 503)).recent_errors.head?
      = some (newError (mkEvent "t10" "/y" "u" 503)) ∧
    (onmessage fullData (mkEvent "t10" "/y" "u" 503)).recent_errors
      = newError (mkEvent "t10" "/y" "u" 503) :: fullData.recent_errors.dropLast :=
  ⟨by decide, by decide, by decide,
   (recent_errors_bounded fullData [mkEvent "t10" "/y" "u" 503, mkEvent "t11" "/z" "u" 404]
      (mkEvent "t10" "/y" "u" 503) (by decide)).1,
   (recent_errors_bounded fullData [mkEvent "t10" "/y" "u" 503, mkEvent "t11" "/z" "u" 404]
      (mkEvent "t10" "/y" "u" 503) (by decide)).2 (by decide) (by decide)⟩

/-- C3, as stated, fails: a record with `status_code` 999 applied to the
all-zero snapshot is not rejected; `total_requests`, `total_errors`, the
`5xx` count and `recent_errors` all change. -/
theorem invalid_event_not_rejected :
    (mkEvent "t" "/a" "u" 999).status_code = 999 ∧
    (onmessage initialData (mkEvent "t" "/a" "u" 999)).total_requests = 1 ∧
    (onmessage initialData (mkEvent "t" "/a" "u" 999)).total_errors = 1 ∧
    (onmessage initialData (mkEvent "t" "/a" "u" 999)).status_code_counts
      = { c2xx := 0, c4xx := 0, c5xx := 1 } ∧
    (onmessage initialData (mkEvent "t" "/a" "u" 999)).recent_errors
      = [newError (mkEvent "t" "/a" "u" 999)] ∧
    ¬ (∀ (s : Data) (e : LogEvent), (e.status_code < 100 ∨ 599 < e.status_code) →
        (onmessage s e).total_requests = s.total_requests ∧
        (onmessage s e).successful_requests = s.successful_requests ∧
        (onmessage s e).total_errors = s.total_errors ∧
        (onmessage s e).status_code_counts = s.status_code_counts ∧
        (onmessage s e).recent_errors = s.recent_errors) := by
  refine ⟨rfl, by decide, by decide, by decide, by decide, ?_⟩
  intro hall
  have h := (hall initialData (mkEvent "t" "/a" "u" 999) (Or.inr (by decide))).1
  revert h
  decide

/-- C3, amended: a record whose `status_code` lies outside [100,599] is
applied like any other.  `total_requests` grows by 1 and the three lists
`requests_over_time`, `top_endpoints`, `top_users` stay as they are; below 100
the record counts as successful and under `2xx` and `recent_errors` is
unchanged; above 599 it counts as an error and under `5xx` and is put
through `unshift`/`pop` onto `recent_errors`. -/
theorem out_of_range_event_applied (s : Data) (e : LogEvent)
    (h : e.status_code < 100 ∨ 599 < e.status_code) :
    (onmessage s e).total_requests = s.total_requests + 1 ∧
    (onmessage s e).requests_over_time = s.requests_over_time ∧
    (onmessage s e).top_endpoints = s.top_endpoints ∧
    (onmessage s e).top_users = s.top_users ∧
    (e.status_code < 100 →
      (onmessage s e).successful_requests = s.successful_requests + 1 ∧
      (onmessage s e).total_errors = s.total_errors ∧
      (onmessage s e).status_code_counts
        = { s.status_code_counts with c2xx := s.status_code_counts.c2xx + 1 } ∧
      (onmessage s e).recent_errors = s.recent_errors) ∧
    (599 < e.status_code →
      (onmessage s e).successful_requests = s.successful_requests ∧
      (onmessage s e).total_errors = s.total_errors + 1 ∧
      (onmessage s e).status_code_counts
        = { s.status_code_counts with c5xx := s.status_code_counts.c5xx + 1 } ∧
      (onmessage s e).recent_errors = unshiftBounded s.recent_errors (newError e)) := by
  refine ⟨onmessage_total_requests s e, (onmessage_frame s e).1, (onmessage_frame s e).2.1,
    (onmessage_frame s e).2.2, ?_⟩
  rw [onmessage_successful_requests, onmessage_total_errors, onmessage_status_code_counts,
    onmessage_recent_errors]
  rcases h with hlt | hgt
  · have h4 : e.status_code < 400 := by omega
    have h4' : ¬ e.status_code ≥ 400 := by omega
    have h5 : ¬ e.status_code ≥ 500 := by omega
    simp only [if_pos h4, if_neg h4', if_neg h5]
    exact ⟨fun _ => by simp, fun hgt => absurd hgt (by omega)⟩
  · have h4 : ¬ e.status_code < 400 := by omega
    have h4' : e.status_code ≥ 400 := by omega
    have h5 : e.status_code ≥ 500 := by omega
    simp only [if_neg h4, if_pos h4', if_pos h5]
    exact ⟨fun hlt => absurd hlt (by omega), fun _ => by simp⟩

/-- The amended C3 at a record with status code 999. -/
theorem out_of_range_event_applied_witness :
    ((mkEvent "t" "/a" "u" 999).status_code < 100 ∨ 599 < (mkEvent "t" "/a" "u" 999).status_code) ∧
    (onmessage initialData (mkEvent "t" "/a" "u" 999)).total_requests
      = initialData.total_requests + 1 ∧
    (onmessage initialData (mkEvent "t" "/a" "u" 999)).total_errors
      = initialData.total_errors + 1 ∧
    (onmessage initialData (mkEvent "t" "/a" "u" 999)).recent_errors
      = unshiftBounded initialData.recent_errors (newError (mkEvent "t" "/a" "u" 999)) :=
  ⟨Or.inr (by decide),
   (out_of_range_event_applied initialData (mkEvent "t" "/a" "u" 999) (Or.inr (by decide))).1,
   ((out_of_range_event_applied initialData (mkEvent "t" "/a" "u" 999)
      (Or.inr (by decide))).2.2.2.2.2 (by decide)).2.1,
   ((out_of_range_event_applied initialData (mkEvent "t" "/a" "u" 999)
      (Or.inr (by decide))).2.2.2.2.2 (by decide)).2.2.2⟩

/-- C4: from a snapshot with zero counters, zero status counts and no recent
errors, five records with status codes 200, 404, 500, 200, 503 give
`total_requests = 5`, `successful_requests = 2`, `total_errors = 3`,
status counts 2/1/2 and the three error records in `recent_errors`, the 503
first, then the 500, then the 404. -/
theorem end_to_end_scenario (s : Data) (e1 e2 e3 e4 e5 : LogEvent)
    (ht : s.total_requests = 0) (hs : s.successful_requests = 0) (he : s.total_errors = 0)
    (hc : s.status_code_counts = { c2xx := 0, c4xx := 0, c5xx := 0 })
    (hr : s.recent_errors = [])
    (h1 : e1.status_code = 200) (h2 : e2.status_code = 404) (h3 : e3.status_code = 500)
    (h4 : e4.status_code = 200) (h5 : e5.status_code = 503) :
    (applyAll s [e1, e2, e3, e4, e5]).total_requests = 5 ∧
    (applyAll s [e1, e2, e3, e4, e5]).successful_requests = 2 ∧
    (applyAll s [e1, e2, e3, e4, e5]).total_errors = 3 ∧
    (applyAll s [e1, e2, e3, e4, e5]).status_code_counts = { c2xx := 2, c4xx := 1, c5xx := 2 } ∧
    (applyAll s [e1, e2, e3, e4, e5]).recent_errors = [newError e5, newError e3, newError e2] ∧
    ((applyAll s [e1, e2, e3, e4, e5]).recent_errors.map (fun o => Obj.get o "status_code"))
      = [some (JVal.num 503), some (JVal.num 500), some (JVal.num 404)] := by
  have hrec : (applyAll s [e1, e2, e3, e4, e5]).recent_errors
      = [newError e5, newError e3, newError e2] := by
    simp [applyAll_cons, applyAll_nil, onmessage_recent_errors, h1, h2, h3, h4, h5, hr,
      unshiftBounded]
  refine ⟨?_, ?_, ?_, ?_, hrec, ?_⟩
  · simp [applyAll_cons, applyAll_nil, onmessage_total_requests, ht]
  · simp [applyAll_cons, applyAll_nil, onmessage_successful_requests, h1, h2, h3, h4, h5, hs]
  · simp [applyAll_cons, applyAll_nil, onmessage_total_errors, h1, h2, h3, h4, h5, he]
  · simp [applyAll_cons, applyAll_nil, onmessage_status_code_counts, h1, h2, h3, h4, h5, hc]
  · rw [hrec]
    simp only [List.map_cons, List.map_nil]
    rw [newError_get_of_get e5 _ _ e5.status_code_eq, newError_get_of_get e3 _ _ e3.status_code_eq,
      newError_get_of_get e2 _ _ e2.status_code_eq, h5, h3, h2]

/-- The scenario of C4 on five concrete records. -/
theorem end_to_end_scenario_witness :
    (applyAll initialData [mkEvent "t1" "/a" "u1" 200, mkEvent "t2" "/b" "u2" 404,
      mkEvent "t3" "/c" "u1" 500, mkEvent "t4" "/a" "u3" 200,
      mkEvent "t5" "/d" "u2" 503]).total_requests = 5 ∧
    (applyAll initialData [mkEvent "t1" "/a" "u1" 200, mkEvent "t2" "/b" "u2" 404,
      mkEvent "t3" "/c" "u1" 500, mkEvent "t4" "/a" "u3" 200,
      mkEvent "t5" "/d" "u2" 503]).recent_errors
      = [newError (mkEvent "t5" "/d" "u2" 503), newError (mkEvent "t3" "/c" "u1" 500),
         newError (mkEvent "t2" "/b" "u2" 404)] :=
  ⟨(end_to_end_scenario initialData (mkEvent "t1" "/a" "u1" 200) (mkEvent "t2" "/b" "u2" 404)
      (mkEvent "t3" "/c" "u1" 500) (mkEvent "t4" "/a" "u3" 200) (mkEvent "t5" "/d" "u2" 503)
      rfl rfl rfl rfl rfl rfl rfl rfl rfl rfl).1,
   (end_to_end_scenario initialData (mkEvent "t1" "/a" "u1" 200) (mkEvent "t2" "/b" "u2" 404)
      (mkEvent "t3" "/c" "u1" 500) (mkEvent "t4" "/a" "u3" 200) (mkEvent "t5" "/d" "u2" 503)
      rfl rfl rfl rfl rfl rfl rfl rfl rfl rfl).2.2.2.2.1⟩

/-- C5, as stated, fails: a record with `status_code` 302 (below 400, not in
[200,299]) applied to the all-zero snapshot raises the `2xx` count from 0
to 1. -/
theorem redirect_counted_as_2xx :
    (mkEvent "t" "/a" "u" 302).status_code = 302 ∧
    initialData.status_code_counts.c2xx = 0 ∧
    (onmessage initialData (mkEvent "t" "/a" "u" 302)).status_code_counts.c2xx = 1 ∧
    ¬ (∀ (s : Data) (e : LogEvent), e.status_code < 400 →
        ¬ (200 ≤ e.status_code ∧ e.status_code ≤ 299) →
        (onmessage s e).successful_requests = s.successful_requests + 1 ∧
        (onmessage s e).status_code_counts = s.status_code_counts) := by
  refine ⟨rfl, rfl, by decide, ?_⟩
  intro hall
  have h := (hall initialData (mkEvent "t" "/a" "u" 302) (by decide) (by decide)).2
  revert h
  decide

/-- C5, amended: every record with `status_code` below 400, inside [200,299]
or not, increments `successful_requests` by 1 and the `2xx` count by 1 and
leaves the `4xx` and `5xx` counts unchanged; the `2xx` count is incremented
exactly for the records with `status_code` below 400. -/
theorem below_400_counted_as_2xx (s : Data) (e : LogEvent) :
    (e.status_code < 400 →
      (onmessage s e).successful_requests = s.successful_requests + 1 ∧
      (onmessage s e).status_code_counts.c2xx = s.status_code_counts.c2xx + 1 ∧
      (onmessage s e).status_code_counts.c4xx = s.status_code_counts.c4xx ∧
      (onmessage s e).status_code_counts.c5xx = s.status_code_counts.c5xx) ∧
    ((onmessage s e).status_code_counts.c2xx = s.status_code_counts.c2xx + 1
      ↔ e.status_code < 400) := by
  rw [onmessage_successful_requests, onmessage_status_code_counts]
  constructor
  · intro hlt
    rw [if_pos hlt, if_neg (by omega), if_neg (by omega)]
    exact ⟨rfl, rfl, rfl, rfl⟩
  · split_ifs with h5 h4
    · simp only
      constructor
      · intro hc; omega
      · intro hlt; omega
    · simp only
      constructor
      · intro hc; omega
      · intro hlt; omega
    · simp only
      constructor
      · intro _; omega
      · intro _; trivial

/-- The amended C5 at a record with status code 302. -/
theorem below_400_counted_as_2xx_witness :
    (mkEvent "t" "/a" "u" 302).status_code < 400 ∧
    (onmessage initialData (mkEvent "t" "/a" "u" 302)).successful_requests
      = initialData.successful_requests + 1 ∧
    (onmessage initialData (mkEvent "t" "/a" "u" 302)).status_code_counts.c2xx
      = initialData.status_code_counts.c2xx + 1 ∧
    (onmessage initialData (mkEvent "t" "/a" "u" 302)).status_code_counts.c4xx
      = initialData.status_code_counts.c4xx ∧
    (onmessage initialData (mkEvent "t" "/a" "u" 302)).status_code_counts.c5xx
      = initialData.status_code_counts.c5xx :=
  ⟨by decide,
   (below_400_counted_as_2xx initialData (mkEvent "t" "/a" "u" 302)).1 (by decide)⟩

/-- C6: a record with `status_code` in [400,599] increments `total_errors`
by 1, leaves `successful_requests` unchanged, increments exactly one status
class by 1 (`4xx` for [400,499], `5xx` for [500,599]) leaving the other two
unchanged, and is recorded at the front of `recent_errors`; a record with
`status_code` below 400 leaves `total_errors` and `recent_errors` unchanged. -/
theorem error_branch_postcondition (s : Data) (e : LogEvent) :
    (400 ≤ e.status_code → e.status_code ≤ 599 →
      (onmessage s e).total_errors = s.total_errors + 1 ∧
      (onmessage s e).successful_requests = s.successful_requests ∧
      (e.status_code ≤ 499 →
        (onmessage s e).status_code_counts
          = { s.status_code_counts with c4xx := s.status_code_counts.c4xx + 1 }) ∧
      (500 ≤ e.status_code →
        (onmessage s e).status_code_counts
          = { s.status_code_counts with c5xx := s.status_code_counts.c5xx + 1 }) ∧
      (onmessage s e).recent_errors = unshiftBounded s.recent_errors (newError e) ∧
      (onmessage s e).recent_errors.head? = some (newError e)) ∧
    (e.status_code < 400 →
      (onmessage s e).total_errors = s.total_errors ∧
      (onmessage s e).recent_errors = s.recent_errors) := by
  constructor
  · intro hlo _
    have hge : e.status_code ≥ 400 := hlo
    have hnlt : ¬ e.status_code < 400 := by omega
    have hrec : (onmessage s e).recent_errors = unshiftBounded s.recent_errors (newError e) := by
      rw [onmessage_recent_errors, if_pos hge]
    refine ⟨?_, ?_, ?_, ?_, hrec, ?_⟩
    · rw [onmessage_total_errors, if_neg hnlt]
    · rw [onmessage_successful_requests, if_neg hnlt]
    · intro h499
      have hn5 : ¬ e.status_code ≥ 500 := by omega
      rw [onmessage_status_code_counts, if_neg hn5, if_pos hge]
    · intro h500
      have h5 : e.status_code ≥ 500 := h500
      rw [onmessage_status_code_counts, if_pos h5]
    · rw [hrec]
      unfold unshiftBounded
      simp only [List.length_cons, gt_iff_lt]
      split_ifs with hlen
      · cases hs : s.recent_errors with
        | nil => rw [hs] at hlen; simp at hlen
        | cons a l => rfl
      · rfl
  · intro hlt
    have hnge : ¬ e.status_code ≥ 400 := by omega
    exact ⟨by rw [onmessage_total_errors, if_pos hlt],
      by rw [onmessage_recent_errors, if_neg hnge]⟩

/-- Both branches of C6, at status codes 404 and 204. -/
theorem error_branch_postcondition_witness :
    (400 ≤ (mkEvent "t" "/a" "u" 404).status_code ∧ (mkEvent "t" "/a" "u" 404).status_code ≤ 599) ∧
    ((onmessage fullData (mkEvent "t" "/a" "u" 404)).total_errors = fullData.total_errors + 1 ∧
      (onmessage fullData (mkEvent "t" "/a" "u" 404)).successful_requests
        = fullData.successful_requests) ∧
    (mkEvent "t" "/a" "u" 204).status_code < 400 ∧
    ((onmessage fullData (mkEvent "t" "/a" "u" 204)).total_errors = fullData.total_errors ∧
      (onmessage fullData (mkEvent "t" "/a" "u" 204)).recent_errors = fullData.recent_errors) :=
  ⟨⟨by decide, by decide⟩,
   ⟨((error_branch_postcondition fullData (mkEvent "t" "/a" "u" 404)).1
      (by decide) (by decide)).1,
    ((error_branch_postcondition fullData (mkEvent "t" "/a" "u" 404)).1
      (by decide) (by decide)).2.1⟩,
   by decide,
   (error_branch_postcondition fullData (mkEvent "t" "/a" "u" 204)).2 (by decide)⟩

/-- C7: starting from a list `R0` of at most 10 recent errors, after any
sequence of records `recent_errors` is the first 10 elements of the entries of
the error records (`status_code ≥ 400`) in reverse arrival order followed by
`R0`; so the retained errors stand most recent first, in an order that never
inverts arrival order. -/
theorem recent_errors_last_ten (s : Data) (es : List LogEvent)
    (h : s.recent_errors.length ≤ 10) :
    (applyAll s es).recent_errors
      = (((es.filter (fun e => decide (e.status_code ≥ 400))).reverse.map newError)
          ++ s.recent_errors).take 10 := by
  induction es generalizing s with
  | nil =>
    simp only [applyAll_nil, List.filter_nil, List.reverse_nil, List.map_nil, List.nil_append]
    exact (List.take_of_length_le h).symm
  | cons e es ih =>
    rw [applyAll_cons, ih (onmessage s e) (onmessage_recent_errors_length_le s e h),
      onmessage_recent_errors]
    by_cases he : e.status_code ≥ 400
    · rw [if_pos he, unshiftBounded_eq_take _ _ h, take_append_take]
      simp [List.filter_cons, he]
    · rw [if_neg he]
      simp [List.filter_cons, he]

/-- The equation of C7 on a full list and three further records. -/
theorem recent_errors_last_ten_witness :
    fullData.recent_errors.length ≤ 10 ∧
    (applyAll fullData [mkEvent "a" "/a" "u" 404, mkEvent "b" "/b" "u" 200,
        mkEvent "c" "/c" "u" 500]).recent_errors
      = ((([mkEvent "a" "/a" "u" 404, mkEvent "b" "/b" "u" 200,
              mkEvent "c" "/c" "u" 500].filter
            (fun e => decide (e.status_code ≥ 400))).reverse.map newError)
          ++ fullData.recent_errors).take 10 :=
  ⟨by decide,
   recent_errors_last_ten fullData [mkEvent "a" "/a" "u" 404, mkEvent "b" "/b" "u" 200,
     mkEvent "c" "/c" "u" 500] (by decide)⟩

/-- C8 at a record that carries an `id` of its own: the entry placed at the
front of `recent_errors` has the record's `id` ("evt-1"), not its
`timestamp_utc` ("2024-01-01T00:00:00Z"); the spread that follows `id` in the
object literal overwrites it. -/
theorem error_entry_id_overwritten :
    (mkEventWithId "evt-1" "2024-01-01T00:00:00Z" "/a" "u1" 500).timestamp_utc
      = JVal.str "2024-01-01T00:00:00Z" ∧
    (onmessage initialData
        (mkEventWithId "evt-1" "2024-01-01T00:00:00Z" "/a" "u1" 500)).recent_errors
      = [[("id", JVal.str "evt-1"), ("timestamp_utc", JVal.str "2024-01-01T00:00:00Z"),
          ("request_path", JVal.str "/a"), ("status_code", JVal.num 500),
          ("user", JVal.str "u1")]] ∧
    ((onmessage initialData
        (mkEventWithId "evt-1" "2024-01-01T00:00:00Z" "/a" "u1" 500)).recent_errors.head?.bind
        (fun o => Obj.get o "id")) = some (JVal.str "evt-1") ∧
    JVal.str "evt-1" ≠ JVal.str "2024-01-01T00:00:00Z" := by
  refine ⟨rfl, by decide, by decide, by decide⟩

/-- C9, as stated, fails: from the snapshot with empty `top_endpoints`, four
records with request paths "/a", "/a", "/b", "/b" leave `top_endpoints`
empty. -/
theorem leaderboard_not_updated :
    initialData.top_endpoints = [] ∧
    (applyAll initialData [mkEvent "t1" "/a" "u" 200, mkEvent "t2" "/a" "u" 200,
      mkEvent "t3" "/b" "u" 200, mkEvent "t4" "/b" "u" 200]).top_endpoints = [] ∧
    (applyAll initialData [mkEvent "t1" "/a" "u" 200, mkEvent "t2" "/a" "u" 200,
      mkEvent "t3" "/b" "u" 200, mkEvent "t4" "/b" "u" 200]).top_endpoints
      ≠ [("/a", 2), ("/b", 2)] := by
  refine ⟨rfl, by decide, by decide⟩

/-- C9, amended: the update never touches the leaderboards; after any
sequence of records `top_endpoints` and `top_users` are those of the starting
snapshot (the four records "/a", "/a", "/b", "/b" applied to an empty
`top_endpoints` leave it empty). -/
theorem leaderboards_unchanged (s : Data) (es : List LogEvent) :
    (applyAll s es).top_endpoints = s.top_endpoints ∧
    (applyAll s es).top_users = s.top_users := by
  induction es generalizing s with
  | nil => exact ⟨rfl, rfl⟩
  | cons e es ih =>
    rw [applyAll_cons]
    obtain ⟨h1, h2⟩ := ih (onmessage s e)
    exact ⟨h1.trans (onmessage_frame s e).2.1, h2.trans (onmessage_frame s e).2.2⟩

/-- C10: one update leaves `requests_over_time`, `top_endpoints` and
`top_users` as they were; exactly one of the three status counts grows by 1
while the other two keep their values, so their sum grows by exactly 1. -/
theorem update_frame (s : Data) (e : LogEvent) :
    (onmessage s e).requests_over_time = s.requests_over_time ∧
    (onmessage s e).top_endpoints = s.top_endpoints ∧
    (onmessage s e).top_users = s.top_users ∧
    (((onmessage s e).status_code_counts
          = { s.status_code_counts with c2xx := s.status_code_counts.c2xx + 1 }) ∨
      ((onmessage s e).status_code_counts
          = { s.status_code_counts with c4xx := s.status_code_counts.c4xx + 1 }) ∨
      ((onmessage s e).status_code_counts
          = { s.status_code_counts with c5xx := s.status_code_counts.c5xx + 1 })) ∧
    (onmessage s e).status_code_counts.c2xx + (onmessage s e).status_code_counts.c4xx
        + (onmessage s e).status_code_counts.c5xx
      = s.status_code_counts.c2xx + s.status_code_counts.c4xx + s.status_code_counts.c5xx + 1 := by
  refine ⟨(onmessage_frame s e).1, (onmessage_frame s e).2.1, (onmessage_frame s e).2.2, ?_, ?_⟩
  · rw [onmessage_status_code_counts]
    split_ifs
    · exact Or.inr (Or.inr rfl)
    · exact Or.inr (Or.inl rfl)
    · exact Or.inl rfl
  · rw [onmessage_status_code_counts]
    split_ifs <;> simp only <;> omega

end Rexus
